import Mathlib

/-!
Verification of the `@egomobile/nats` client library.

This file gives a shallow embedding of the core operations of the library
(`NatsPublisher.publish`, `NatsClient.close` / `connect` / `isEnabled` /
`exitOnClose`, and the `NatsConsumer` message pipeline:
`createMessageCallback`, the typed `on` registration, and the pull-consume
loop of `subscribe`) and proves the behavioural properties of its design
document against that embedding.

Side effects (acknowledgments, error-channel emissions, process-level
effects, network sends) are modelled as explicit event traces.  External
collaborators (the NATS wire codec, the broker's send outcome) are
parameters of the embedded functions, since they are not code of this
repository.
-/

namespace EgoNats

/-- A fault value: models a thrown JavaScript error. -/
inductive Fault
  | boom
  | decodeError
  | custom (n : Nat)
deriving DecidableEq

/-- A raw broker message (`JsMsg`): an identifier and its payload bytes. -/
structure RawMsg where
  sid : Nat
  data : List Nat
deriving DecidableEq

/-- An event emitted on the consumer's "error" observer channel.
`natsMessageError cause msg` embeds `new NatsMessageError(error, message)`
from `natsMessageError.ts`: the wrapper carrying the originating fault and
the raw broker message.  `plain` is an unwrapped error emission. -/
inductive ErrorEvent
  | natsMessageError (cause : Fault) (msg : RawMsg)
  | plain (cause : Fault)
deriving DecidableEq

/-- An action performed while a message observer (or its ack-decorator)
runs: `ack` is an invocation of the context's `ack()` (i.e. `message.ack()`
on the raw broker message, as built by `createAck`); `effect n` is any
other observable action of the observer body. -/
inductive Act
  | ack
  | effect (n : Nat)
deriving DecidableEq

/-- The observable state of an `AbortController`'s signal. -/
structure AbortController where
  aborted : Bool
deriving DecidableEq

/-- `AbortController.prototype.abort()`: sets the signal, and nothing ever
unsets it (the Web API has no operation that clears `aborted`). -/
def AbortController.abort (_c : AbortController) : AbortController := ⟨true⟩

/-- The three abort signals consulted at the top of each iteration of the
consume loop in `NatsConsumer.subscribe` (natsConsumer.ts:245-247):
`inner` is `innerAbortController.signal.aborted` (the scope the returned
disposer aborts), `own` is `this.#abortController.signal.aborted` (the
consumer's controller, which `NatsClient.createConsumer` defaults to the
client's connection-level controller), `call` is `options?.signal?.aborted`
(the caller-supplied signal of this `subscribe` call). -/
structure Scopes where
  inner : Bool
  own : Bool
  call : Bool
deriving DecidableEq

/-- `innerAbortController.signal.aborted || this.#abortController.signal.aborted
|| !!signal?.aborted` from natsConsumer.ts:245-247. -/
def Scopes.isAborted (s : Scopes) : Bool := s.inner || s.own || s.call

/-- Names one of the three cancellation scopes of `Scopes`. -/
inductive ScopeId
  | inner
  | own
  | call
deriving DecidableEq

/-- Reads the flag of the named cancellation scope. -/
def readScope : ScopeId → Scopes → Bool
  | ScopeId.inner, s => s.inner
  | ScopeId.own, s => s.own
  | ScopeId.call, s => s.call

/-- The message consumer context `INatsMessageConsumerContext<T>`
(natsConsumer.ts:48-61) as far as it is data: the `noAck` flag and the
decoded message.  The context's `ack` member is represented by the
`Act.ack` event that invoking it appends to the running observer's
trace. -/
structure Ctx (T : Type) where
  noAck : Bool
  message : T

/-- The settled execution of one (asynchronous) observer on one context:
the ordered actions it performed, and its outcome (normal completion or a
thrown fault).  `asAsync` guarantees every registered handler settles this
way rather than throwing synchronously into the emitter. -/
abbrev ObserverRun := List Act × Except Fault Unit

/-- Number of `ack()` invocations in a settled run. -/
def ackCount (r : ObserverRun) : Nat := r.1.count Act.ack

/-- The fault an observer run was rejected with, if any. -/
def faultOf (r : ObserverRun) : Option Fault :=
  match r.2 with
  | Except.ok _ => none
  | Except.error e => some e

/-- `createMessageCallback` (natsConsumer.ts:76-88): wraps a handler into
an async function that first awaits the handler on the context and then,
only if the handler completed normally and `context.noAck` is false,
invokes `context.ack()`.  A rejection of the handler propagates unchanged
and skips the ack. -/
def createMessageCallback {T : Type} (func : Ctx T → ObserverRun) : Ctx T → ObserverRun :=
  fun context =>
    let r := func context
    match r.2 with
    | Except.ok u => if context.noAck then r else (r.1 ++ [Act.ack], Except.ok u)
    | Except.error e => (r.1, Except.error e)

/-- The settled-run semantics of the ack-decorator, as a function of the
context's `noAck` flag and the handler's own settled run. -/
def ackDecorate (noAck : Bool) (run : ObserverRun) : ObserverRun :=
  match run.2 with
  | Except.ok u => if noAck then run else (run.1 ++ [Act.ack], Except.ok u)
  | Except.error e => (run.1, Except.error e)

/-- The typed `on("message", func)` registration (natsConsumer.ts:128-140):
appends the ack-decorated form of `func` to the ordered registry of
"message" handlers.  ("error" handlers are stored unwrapped.) -/
def onMessage {T : Type} (handlers : List (Ctx T → ObserverRun))
    (func : Ctx T → ObserverRun) : List (Ctx T → ObserverRun) :=
  handlers ++ [createMessageCallback func]

/-- Everything observable from one iteration body of the consume loop
(natsConsumer.ts:252-263) on one raw message:
`errorEvents` — emissions on the "error" channel, in order;
`dispatches` — how many registered "message" handlers were invoked;
`acks` — how many times `message.ack()` ran across all handler runs;
`unhandled` — faults of rejected handler promises, which `emit` does not
surface and the loop never observes. -/
structure IterResult where
  errorEvents : List ErrorEvent
  dispatches : Nat
  acks : Nat
  unhandled : List Fault
deriving DecidableEq

/-- The `try`/`catch` body of one loop iteration (natsConsumer.ts:252-263):
build the context — decoding `message.data` via the JSON codec, which may
throw — then `emit("message", context)`, which synchronously invokes every
registered (ack-decorated, hence async) handler; each handler's promise
settles on its own and its rejection is observed by nobody.  A fault
thrown synchronously inside the `try` (the decode) is caught and re-emitted
on the "error" channel wrapped as `new NatsMessageError(error, message)`. -/
def processMessage {T : Type} (noAutoAck : Bool) (decode : RawMsg → Except Fault T)
    (handlers : List (Ctx T → ObserverRun)) (message : RawMsg) : IterResult :=
  match decode message with
  | Except.error e => ⟨[ErrorEvent.natsMessageError e message], 0, 0, []⟩
  | Except.ok p =>
    let context : Ctx T := ⟨noAutoAck, p⟩
    let runs := handlers.map (fun h => h context)
    ⟨[], handlers.length, (runs.map ackCount).sum, runs.filterMap faultOf⟩

/-- The `for await` consume loop of `NatsConsumer.subscribe`
(natsConsumer.ts:244-264), with time made explicit: `σ i` is the state of
the three abort scopes observed at the top of iteration `i`.  Each
iteration first checks `isAborted` and breaks before decoding or
dispatching; otherwise it fully processes the next pulled message and
recurses.  The result pairs each processed message's iteration index with
its complete iteration outcome. -/
def consumeLoop {T : Type} (noAutoAck : Bool) (decode : RawMsg → Except Fault T)
    (handlers : List (Ctx T → ObserverRun)) (σ : Nat → Scopes) :
    List RawMsg → Nat → List (Nat × IterResult)
  | [], _ => []
  | m :: rest, i =>
    if (σ i).isAborted then []
    else (i, processMessage noAutoAck decode handlers m) ::
      consumeLoop noAutoAck decode handlers σ rest (i + 1)

/-- The disposer returned by `NatsConsumer.subscribe`
(natsConsumer.ts:269-271): `() => innerAbortController.abort()`, acting on
the subscription's own inner controller. -/
def subscribeDispose : AbortController → AbortController := AbortController.abort

/-- A raw NATS connection handle as far as the client observes it:
`closedFlag` is what `isClosed()` reports. -/
structure NatsConnection where
  closedFlag : Bool
deriving DecidableEq

/-- Errors raised or emitted by the client/publisher layer. -/
inductive JsError
  | noConnection
  | alreadyOpen
  | brokerFailure (n : Nat)
deriving DecidableEq

/-- How the promise returned by `publish` settles. -/
inductive PublishOutcome
  | resolved (success : Bool)
  | rejected (e : JsError)
deriving DecidableEq

/-- Everything observable from one `NatsPublisher.publish` call: how its
promise settles, the events emitted on the publisher's "error" channel,
whether `jc.encode` ran, and how many broker sends were attempted. -/
structure PublishResult where
  outcome : PublishOutcome
  errorEvents : List JsError
  encoded : Bool
  sendAttempts : Nat
deriving DecidableEq

/-- `NatsPublisher.publish` (internal.ts:120-144).  Mock mode returns
`true` before any other step.  Otherwise the whole body runs inside a
`try`: a missing connection throws `"no NATS connection available"`
*inside* that `try`; any caught fault is emitted on the "error" channel and
the method resolves `false`.  `sendOutcome` is the broker's response to
`js.publish`, an external input. -/
def publish (isMock : Bool) (connection : Option NatsConnection)
    (sendOutcome : Except JsError Unit) : PublishResult :=
  if isMock then ⟨PublishOutcome.resolved true, [], false, 0⟩
  else
    match connection with
    | none => ⟨PublishOutcome.resolved false, [JsError.noConnection], false, 0⟩
    | some _ =>
      match sendOutcome with
      | Except.ok _ => ⟨PublishOutcome.resolved true, [], true, 1⟩
      | Except.error e => ⟨PublishOutcome.resolved false, [e], true, 1⟩

/-- Amended-claim mirror for the publisher, written from the amended
specification text: in mock-off mode, a missing connection — like every
other failure — emits the fault on the error channel and resolves `false`;
a broker acknowledgment resolves `true` with nothing emitted; a broker
failure emits that fault and resolves `false`; the promise never
rejects. -/
def publishSpecAmended (connection : Option NatsConnection)
    (sendOutcome : Except JsError Unit) : PublishResult :=
  match connection with
  | none => ⟨PublishOutcome.resolved false, [JsError.noConnection], false, 0⟩
  | some _ =>
    match sendOutcome with
    | Except.ok _ => ⟨PublishOutcome.resolved true, [], true, 1⟩
    | Except.error e => ⟨PublishOutcome.resolved false, [e], true, 1⟩

/-- The mutable state of a `NatsClient`: its stored `#connection`
handle. -/
structure NatsClientState where
  connection : Option NatsConnection
deriving DecidableEq

/-- `NatsClient.isEnabled` (internal.ts:408-410):
`!!this.#connection && !this.#connection.isClosed()`. -/
def isEnabled (s : NatsClientState) : Bool :=
  match s.connection with
  | some c => !c.closedFlag
  | none => false

/-- `NatsClient.close` (internal.ts:289-299): if a connection is stored and
not closed, close it, null the stored handle and return `true`; otherwise
return `false` leaving the stored handle untouched. -/
def close (s : NatsClientState) : Bool × NatsClientState :=
  match s.connection with
  | some c =>
    if c.closedFlag then (false, s)
    else (true, ⟨none⟩)
  | none => (false, s)

/-- `NatsClient.connect` (internal.ts:306-318): if `isEnabled`, throw
`"there is already an open connection"` without touching state; otherwise
store and return the freshly established connection (`newConnection`, the
external handshake's result). -/
def connect (s : NatsClientState) (newConnection : NatsConnection) :
    Except JsError NatsConnection × NatsClientState :=
  if isEnabled s then (Except.error JsError.alreadyOpen, s)
  else (Except.ok newConnection, ⟨some newConnection⟩)

/-- The process-level events `NatsClient.exitOnClose` reacts to. -/
inductive Trigger
  | brokerClosed
  | procExit
  | sigint
  | sigusr1
  | sigusr2
  | uncaughtException (f : Fault)
deriving DecidableEq

/-- Process-level effects performed by the shutdown hooks. -/
inductive Effect
  | exitProcess (code : Nat)
  | setExitCode (code : Nat)
  | logError
  | logWarn
  | abortScope
  | closeConnection
deriving DecidableEq

/-- `NatsClient.#tryClose` (internal.ts:444-453): abort the client's
controller, then attempt `connection.close()`; a fault of that close
(`closeOutcome`, an external input) is only logged as a warning, never
re-thrown. -/
def tryClose (closeOutcome : Except Fault Unit) : List Effect :=
  [Effect.abortScope, Effect.closeConnection] ++
    (match closeOutcome with
     | Except.ok _ => []
     | Except.error _ => [Effect.logWarn])

/-- `options?.exitCode ?? 2` (internal.ts:369). -/
def resolveExitCode (given : Option Nat) : Nat := given.getD 2

/-- The handlers registered by `NatsClient.exitOnClose`
(internal.ts:368-401), as a map from triggering event to the effects the
corresponding handler performs: broker-initiated close runs
`process.exit(exitCode)`; process exit and the three signals run
`#tryClose`; an uncaught exception sets `process.exitCode = exitCode`,
logs the fault, and runs `#tryClose`. -/
def exitOnCloseHandler (exitCode : Nat) (closeOutcome : Except Fault Unit) :
    Trigger → List Effect
  | Trigger.brokerClosed => [Effect.exitProcess exitCode]
  | Trigger.procExit => tryClose closeOutcome
  | Trigger.sigint => tryClose closeOutcome
  | Trigger.sigusr1 => tryClose closeOutcome
  | Trigger.sigusr2 => tryClose closeOutcome
  | Trigger.uncaughtException _ => [Effect.setExitCode exitCode, Effect.logError] ++ tryClose closeOutcome

/-- A message observer that always throws, used as a concrete input. -/
def throwingFunc : Ctx Nat → ObserverRun := fun _ => ([], Except.error Fault.boom)

/-- A decoder that always succeeds, returning the message id. -/
def decodeNat : RawMsg → Except Fault Nat := fun m => Except.ok m.sid

/-- A scope schedule whose inner scope is signaled from iteration 1 on,
used as a concrete input. -/
def witSchedule : Nat → Scopes := fun n => ⟨decide (1 ≤ n), false, false⟩

/-! ## Helper lemmas -/

/-- The named flag of an aborted-reading scope state forces `isAborted`. -/
theorem isAborted_of_readScope (sc : ScopeId) (s : Scopes)
    (h : readScope sc s = true) : s.isAborted = true := by
  cases sc <;> simp [readScope] at h <;> simp [Scopes.isAborted, h]

/-- Structure of every entry the consume loop produces: entries are indexed
from the starting iteration, each was produced at a non-aborted iteration,
and each is the complete processing of the message at its position. -/
theorem consumeLoop_mem {T : Type} (noAutoAck : Bool) (decode : RawMsg → Except Fault T)
    (handlers : List (Ctx T → ObserverRun)) (σ : Nat → Scopes) :
    ∀ (msgs : List RawMsg) (start j : Nat) (r : IterResult),
      (j, r) ∈ consumeLoop noAutoAck decode handlers σ msgs start →
      start ≤ j ∧ (σ j).isAborted = false ∧
        ∃ m, msgs.get? (j - start) = some m ∧ r = processMessage noAutoAck decode handlers m := by
  intro msgs
  induction msgs with
  | nil => intro start j r h; simp [consumeLoop] at h
  | cons m rest ih =>
    intro start j r h
    rw [consumeLoop] at h
    by_cases hab : (σ start).isAborted = true
    · simp [hab] at h
    · rw [if_neg hab] at h
      rcases List.mem_cons.mp h with heq | hmem
      · have hj : j = start := by exact congrArg Prod.fst heq
        have hr : r = processMessage noAutoAck decode handlers m := by
          exact congrArg Prod.snd heq
        subst hj
        refine ⟨Nat.le_refl _, by simpa using hab, m, ?_, hr⟩
        simp
      · obtain ⟨hle, hnab, mm, hget, hr⟩ := ih (start + 1) j r hmem
        refine ⟨Nat.le_of_succ_le hle, hnab, mm, ?_, hr⟩
        have h1 : j - start = (j - (start + 1)) + 1 := by omega
        rw [h1]
        simpa using hget

/-- If no scope is ever aborted, the loop processes every message. -/
theorem consumeLoop_length_no_abort {T : Type} (noAutoAck : Bool)
    (decode : RawMsg → Except Fault T) (handlers : List (Ctx T → ObserverRun))
    (σ : Nat → Scopes) (hσ : ∀ i, (σ i).isAborted = false) :
    ∀ (msgs : List RawMsg) (start : Nat),
      (consumeLoop noAutoAck decode handlers σ msgs start).length = msgs.length := by
  intro msgs
  induction msgs with
  | nil => intro start; simp [consumeLoop]
  | cons m rest ih =>
    intro start
    rw [consumeLoop, if_neg (by simp [hσ start])]
    simp [ih]

/-- `createMessageCallback` applies exactly the decorator semantics to the
handler's settled run. -/
theorem createMessageCallback_as_decorate {T : Type} (func : Ctx T → ObserverRun)
    (context : Ctx T) :
    createMessageCallback func context = ackDecorate context.noAck (func context) :=
  rfl

/-! ## Claim theorems -/

/-- Claim C1, counterexample: with no-ack policy false, a registered
"message" observer that throws settles without `ack()` ever being invoked
(`ackCount` is 0, not 1), refuting the claim that a dispatch that settles
by throwing still acks exactly once. -/
theorem claim_C1_counterexample :
    createMessageCallback throwingFunc ⟨false, 0⟩ = ([], Except.error Fault.boom) ∧
    ackCount (createMessageCallback throwingFunc ⟨false, 0⟩) = 0 :=
  ⟨rfl, rfl⟩

/-- Claim C1, amended: for a consumer with no-ack policy false and any
registered "message" observer, if the observer completes normally (and did
not itself invoke `ack()`), the decorated dispatch invokes `ack()` exactly
once, strictly after every action of the observer; if the observer throws,
the decorated dispatch performs no automatic `ack()` and propagates the
fault unchanged. -/
theorem claim_C1_auto_ack {T : Type} (func : Ctx T → ObserverRun) (context : Ctx T)
    (hno : context.noAck = false) :
    ((func context).2 = Except.ok () → Act.ack ∉ (func context).1 →
      createMessageCallback func context = ((func context).1 ++ [Act.ack], Except.ok ()) ∧
      ackCount (createMessageCallback func context) = 1) ∧
    (∀ e, (func context).2 = Except.error e →
      createMessageCallback func context = ((func context).1, Except.error e)) := by
  constructor
  · intro hok hmem
    rcases hfc : func context with ⟨acts, out⟩
    replace hok : out = Except.ok () := by rw [hfc] at hok; exact hok
    replace hmem : Act.ack ∉ acts := by rw [hfc] at hmem; exact hmem
    subst hok
    have h1 : createMessageCallback func context
        = ackDecorate context.noAck (acts, Except.ok ()) := by
      rw [createMessageCallback_as_decorate, hfc]
    simp only [ackDecorate, hno, Bool.false_eq_true, if_false] at h1
    rw [h1]
    constructor
    · rfl
    · unfold ackCount
      simp [List.count_append, List.count_eq_zero.mpr hmem]
  · intro e herr
    rcases hfc : func context with ⟨acts, out⟩
    replace herr : out = Except.error e := by rw [hfc] at herr; exact herr
    subst herr
    have h1 : createMessageCallback func context
        = ackDecorate context.noAck (acts, Except.error e) := by
      rw [createMessageCallback_as_decorate, hfc]
    simp only [ackDecorate] at h1
    rw [h1]

/-- Claim C1, witness. -/
theorem claim_C1_auto_ack_witness :
    createMessageCallback (fun _ : Ctx Nat => ([Act.effect 5], Except.ok ())) ⟨false, 7⟩
      = ([Act.effect 5, Act.ack], Except.ok ()) ∧
    ackCount (createMessageCallback (fun _ : Ctx Nat => ([Act.effect 5], Except.ok ())) ⟨false, 7⟩) = 1 :=
  (claim_C1_auto_ack (fun _ : Ctx Nat => ([Act.effect 5], Except.ok ())) ⟨false, 7⟩ rfl).1
    rfl (by decide)

/-- Claim C2, counterexample: a non-mock publish with no stored connection
does not reject — it resolves `false` and emits the `noConnection` fault on
the error channel, exactly like every other failure, refuting the claimed
synchronous-throw exception for the no-connection case. -/
theorem claim_C2_counterexample :
    publish false none (Except.ok ())
      = ⟨PublishOutcome.resolved false, [JsError.noConnection], false, 0⟩ :=
  rfl

/-- Claim C2, amended: for every non-mock publish, the call coincides with
the amended specification — on broker acknowledgment it resolves `true`
with nothing emitted; on any failure, *including the absence of an open
connection*, the fault is emitted on the error observer channel and the
call resolves `false` — and its promise always resolves, never rejects. -/
theorem claim_C2_publish_failures (connection : Option NatsConnection)
    (sendOutcome : Except JsError Unit) :
    publish false connection sendOutcome = publishSpecAmended connection sendOutcome ∧
    ∃ success, (publish false connection sendOutcome).outcome = PublishOutcome.resolved success := by
  cases connection with
  | none => exact ⟨rfl, false, rfl⟩
  | some c =>
    cases sendOutcome with
    | ok u => exact ⟨rfl, true, rfl⟩
    | error e => exact ⟨rfl, false, rfl⟩

/-- Claim C3, counterexample: with a successfully decoding message and one
registered "message" observer that throws, the iteration emits *nothing*
on the error channel — the observer's fault is an unobserved rejection —
refuting the claim that observer faults are captured and emitted wrapped
with the raw message. -/
theorem claim_C3_counterexample :
    (processMessage false decodeNat (onMessage [] throwingFunc) ⟨0, []⟩).errorEvents = [] ∧
    (processMessage false decodeNat (onMessage [] throwingFunc) ⟨0, []⟩).unhandled = [Fault.boom] :=
  ⟨rfl, rfl⟩

/-- Claim C3, amended: an observer fault never terminates the consumer
loop — with no cancellation requested, the loop still processes every
message — but the fault is *not* emitted on the consumer's error channel:
the iteration's error-channel trace is empty and the fault only survives as
an unobserved rejection.  (Only faults thrown synchronously inside the
iteration body, i.e. decode failures, reach the error channel wrapped with
the raw message.) -/
theorem claim_C3_observer_fault {T : Type} (noAutoAck : Bool)
    (decode : RawMsg → Except Fault T) (func : Ctx T → ObserverRun)
    (acts : List Act) (e : Fault) (message : RawMsg) (rest : List RawMsg) (p : T)
    (hdec : decode message = Except.ok p)
    (hrun : func ⟨noAutoAck, p⟩ = (acts, Except.error e)) :
    (processMessage noAutoAck decode (onMessage [] func) message).errorEvents = [] ∧
    (processMessage noAutoAck decode (onMessage [] func) message).unhandled = [e] ∧
    (consumeLoop noAutoAck decode (onMessage [] func)
        (fun _ => ⟨false, false, false⟩) (message :: rest) 0).length
      = (message :: rest).length := by
  refine ⟨?_, ?_, ?_⟩
  · unfold processMessage
    rw [hdec]
  · unfold processMessage
    rw [hdec]
    simp only [onMessage, List.nil_append, List.map_cons, List.map_nil]
    unfold createMessageCallback
    simp [hrun, faultOf]
  · exact consumeLoop_length_no_abort noAutoAck decode (onMessage [] func)
      (fun _ => ⟨false, false, false⟩) (fun _ => rfl) (message :: rest) 0

/-- Claim C3, witness. -/
theorem claim_C3_observer_fault_witness :
    (processMessage false decodeNat (onMessage [] throwingFunc) ⟨3, [1]⟩).errorEvents = [] ∧
    (processMessage false decodeNat (onMessage [] throwingFunc) ⟨3, [1]⟩).unhandled = [Fault.boom] ∧
    (consumeLoop false decodeNat (onMessage [] throwingFunc)
        (fun _ => ⟨false, false, false⟩) [⟨3, [1]⟩, ⟨4, []⟩] 0).length
      = ([⟨3, [1]⟩, ⟨4, []⟩] : List RawMsg).length :=
  claim_C3_observer_fault false decodeNat throwingFunc [] Fault.boom ⟨3, [1]⟩ [⟨4, []⟩] 3
    rfl rfl

/-- Claim C5: whenever decoding a received broker message's payload fails,
the iteration emits exactly one error-channel event, of the
`NatsMessageError` wrapper kind carrying the original fault and the raw
broker message; no registered "message" observer is invoked and `ack()` is
never run. -/
theorem claim_C5_decode_failure {T : Type} (noAutoAck : Bool)
    (decode : RawMsg → Except Fault T) (handlers : List (Ctx T → ObserverRun))
    (message : RawMsg) (e : Fault) (hdec : decode message = Except.error e) :
    processMessage noAutoAck decode handlers message
      = ⟨[ErrorEvent.natsMessageError e message], 0, 0, []⟩ := by
  unfold processMessage
  rw [hdec]

/-- Claim C5, witness. -/
theorem claim_C5_decode_failure_witness :
    processMessage false (fun _ : RawMsg => (Except.error Fault.decodeError : Except Fault Nat))
        (onMessage [] throwingFunc) ⟨0, []⟩
      = ⟨[ErrorEvent.natsMessageError Fault.decodeError ⟨0, []⟩], 0, 0, []⟩ :=
  claim_C5_decode_failure false _ (onMessage [] throwingFunc) ⟨0, []⟩ Fault.decodeError rfl

/-- Claim C8: a publish on a publisher whose bound client is in mock mode
resolves `true`, performs no encoding and no send attempt, and emits
nothing on the error channel — regardless of whether a connection exists
and of what the broker would have answered. -/
theorem claim_C8_mock_publish (connection : Option NatsConnection)
    (sendOutcome : Except JsError Unit) :
    publish true connection sendOutcome = ⟨PublishOutcome.resolved true, [], false, 0⟩ :=
  rfl

/-- Claim C4: if any one of the three cancellation scopes consulted by the
consume loop (the subscription's inner scope, the consumer's own
controller — the connection-level controller under the default wiring of
`createConsumer` — or the caller-supplied signal of the `subscribe` call)
is signaled at iteration `i` and stays signaled (monotonic), then every
entry the loop ever produces belongs to an iteration before `i` and is the
*complete* processing of its message — nothing at or after `i` is decoded
or dispatched; moreover `AbortController.abort` always leaves the signal
set and never un-sets an already-set signal. -/
theorem claim_C4_cancellation {T : Type} (noAutoAck : Bool)
    (decode : RawMsg → Except Fault T) (handlers : List (Ctx T → ObserverRun))
    (msgs : List RawMsg) (σ : Nat → Scopes) (sc : ScopeId) (i : Nat)
    (hmono : ∀ j k, j ≤ k → readScope sc (σ j) = true → readScope sc (σ k) = true)
    (hsig : readScope sc (σ i) = true) :
    (∀ j r, (j, r) ∈ consumeLoop noAutoAck decode handlers σ msgs 0 →
       j < i ∧ ∃ m, msgs.get? j = some m ∧ r = processMessage noAutoAck decode handlers m) ∧
    (∀ c : AbortController, (AbortController.abort c).aborted = true) ∧
    (∀ c : AbortController, c.aborted = true → AbortController.abort c = c) := by
  refine ⟨?_, fun _ => rfl, ?_⟩
  · intro j r hmem
    obtain ⟨-, hnab, m, hget, hr⟩ :=
      consumeLoop_mem noAutoAck decode handlers σ msgs 0 j r hmem
    have hji : j < i := by
      by_contra hge
      push_neg at hge
      have hsg := hmono i j hge hsig
      have hab := isAborted_of_readScope sc (σ j) hsg
      rw [hnab] at hab
      exact Bool.noConfusion hab
    exact ⟨hji, m, by simpa using hget, hr⟩
  · intro c hc
    cases c with
    | mk a =>
      have ha : a = true := hc
      subst ha
      rfl

/-- Claim C4, witness. -/
theorem claim_C4_cancellation_witness :
    (∀ j r, (j, r) ∈ consumeLoop false decodeNat [] witSchedule [⟨0, []⟩, ⟨1, []⟩] 0 →
       j < 1 ∧ ∃ m, ([⟨0, []⟩, ⟨1, []⟩] : List RawMsg).get? j = some m ∧
         r = processMessage false decodeNat [] m) ∧
    (∀ c : AbortController, (AbortController.abort c).aborted = true) ∧
    (∀ c : AbortController, c.aborted = true → AbortController.abort c = c) :=
  claim_C4_cancellation false decodeNat [] [⟨0, []⟩, ⟨1, []⟩] witSchedule ScopeId.inner 1
    (fun j k hjk hj => by
      simp only [witSchedule, readScope, decide_eq_true_eq] at hj ⊢
      omega)
    (by simp [witSchedule, readScope])

/-- Claim C6: the disposer returned by `subscribe` signals the
subscription's own cancellation scope — afterwards the scope reads as
aborted, so the consume loop's abort check trips no matter what the other
two scopes say — and invoking the disposer again raises nothing and
produces exactly the state the first invocation produced (idempotent). -/
theorem claim_C6_disposer (c : AbortController) (own call : Bool) :
    (subscribeDispose c).aborted = true ∧
    subscribeDispose (subscribeDispose c) = subscribeDispose c ∧
    Scopes.isAborted ⟨(subscribeDispose c).aborted, own, call⟩ = true := by
  refine ⟨rfl, rfl, ?_⟩
  simp [subscribeDispose, AbortController.abort, Scopes.isAborted]

/-- Claim C7: while the stored connection is enabled, `connect()` fails
with the "there is already an open connection" error and leaves the client
state — in particular the stored connection handle — untouched. -/
theorem claim_C7_connect_twice (s : NatsClientState) (newConnection : NatsConnection)
    (h : isEnabled s = true) :
    connect s newConnection = (Except.error JsError.alreadyOpen, s) ∧
    (connect s newConnection).2.connection = s.connection := by
  constructor
  · simp [connect, h]
  · simp [connect, h]

/-- Claim C7, witness. -/
theorem claim_C7_connect_twice_witness :
    connect (NatsClientState.mk (some (NatsConnection.mk false))) (NatsConnection.mk false)
      = (Except.error JsError.alreadyOpen, NatsClientState.mk (some (NatsConnection.mk false))) ∧
    (connect (NatsClientState.mk (some (NatsConnection.mk false))) (NatsConnection.mk false)).2.connection
      = (NatsClientState.mk (some (NatsConnection.mk false))).connection :=
  claim_C7_connect_twice (NatsClientState.mk (some (NatsConnection.mk false)))
    (NatsConnection.mk false) rfl

/-- Claim C9, counterexample: with the default exit code, a
broker-initiated connection close terminates the process with exit code 2
(`process.exit(exitCode)` at internal.ts:377), not with a neutral code —
the neutral `exit 0` effect never occurs. -/
theorem claim_C9_counterexample :
    exitOnCloseHandler (resolveExitCode none) (Except.ok ()) Trigger.brokerClosed
      = [Effect.exitProcess 2] ∧
    List.contains (exitOnCloseHandler (resolveExitCode none) (Except.ok ()) Trigger.brokerClosed)
      (Effect.exitProcess 0) = false :=
  ⟨rfl, rfl⟩

/-- Claim C9, amended: with shutdown hooks registered via `exitOnClose`, a
broker-initiated connection close terminates the process with the supplied
exit code (default 2, resolved by `options?.exitCode ?? 2`) — regardless of
whether a later close attempt would fail — while an uncaught fault sets the
process exit code to the supplied value, logs the fault, and attempts a
best-effort close that swallows a secondary close error (logging it as a
warning only). -/
theorem claim_C9_shutdown_hooks (code : Nat) (f : Fault) (closeErr : Fault) :
    exitOnCloseHandler code (Except.ok ()) Trigger.brokerClosed = [Effect.exitProcess code] ∧
    exitOnCloseHandler code (Except.error closeErr) Trigger.brokerClosed
      = [Effect.exitProcess code] ∧
    resolveExitCode none = 2 ∧
    exitOnCloseHandler code (Except.ok ()) (Trigger.uncaughtException f)
      = [Effect.setExitCode code, Effect.logError, Effect.abortScope, Effect.closeConnection] ∧
    exitOnCloseHandler code (Except.error closeErr) (Trigger.uncaughtException f)
      = [Effect.setExitCode code, Effect.logError, Effect.abortScope, Effect.closeConnection,
         Effect.logWarn] :=
  ⟨rfl, rfl, rfl, rfl, rfl⟩

/-- Claim C10: when the stored connection handle exists but already
reports itself closed, `close()` returns `false` and leaves the state
unchanged — the connection getter still yields the stale closed handle
(not `null`) while `isEnabled` is `false` — and only a `close()` that
returns `true` (one that actually closed an open connection) resets the
stored handle to `null`. -/
theorem claim_C10_stale_close (s : NatsClientState) (c : NatsConnection)
    (hconn : s.connection = some c) (hclosed : c.closedFlag = true) :
    close s = (false, s) ∧
    (close s).2.connection = some c ∧
    isEnabled (close s).2 = false ∧
    (∀ t : NatsClientState, (close t).1 = true → (close t).2.connection = none) := by
  have h1 : close s = (false, s) := by
    unfold close
    rw [hconn]
    simp [hclosed]
  refine ⟨h1, by rw [h1]; exact hconn, ?_, ?_⟩
  · rw [h1]
    simp [isEnabled, hconn, hclosed]
  · intro t ht
    unfold close at ht ⊢
    cases hc : t.connection with
    | none =>
      simp [hc] at ht
    | some cc =>
      cases hcf : cc.closedFlag with
      | true =>
        simp [hc, hcf] at ht
      | false =>
        simp [hc, hcf]

/-- Claim C10, witness. -/
theorem claim_C10_stale_close_witness :
    close (NatsClientState.mk (some (NatsConnection.mk true)))
      = (false, NatsClientState.mk (some (NatsConnection.mk true))) ∧
    (close (NatsClientState.mk (some (NatsConnection.mk true)))).2.connection
      = some (NatsConnection.mk true) ∧
    isEnabled (close (NatsClientState.mk (some (NatsConnection.mk true)))).2 = false ∧
    (∀ t : NatsClientState, (close t).1 = true → (close t).2.connection = none) :=
  claim_C10_stale_close (NatsClientState.mk (some (NatsConnection.mk true)))
    (NatsConnection.mk true) rfl rfl

end EgoNats
